import Mathlib

/-!
Verification development for the document-tagging script
(src/python/llm/tag_document_ollama.py).

The script defines a closed category enumeration (DocumentCategory), a
pydantic model (TaggingModel) with per-field length constraints and two
field validators, four prompt-building functions, and a DocumentTagger
whose get_tags method retries a four-step chat-dependency sequence up to
max_retries times.

The external chat dependency is modelled as an oracle
Chat := Nat → String → Except String String
mapping the index of the call (0, 1, 2, ...) and the user prompt to either
an error message (the dependency raised) or the raw response content
string. Python strings are modelled as Lean String (both sequences of
unicode code points); s[:n] is String.take, str.strip() is pyStrip.
Machine execution is modelled with errors as values: an attempt either
produces a validated record or an attempt error (dependency failure or
pydantic validation failure), and get_tags either returns a record, falls
through the empty loop (Python returns None), or raises the terminal
ValueError, modelled as Except String (Option TaggingModel). Alongside
the result, get_tags returns the total number of dependency calls made
and the trace of steps (which field each dependency call was for), so
that call-count and call-order claims can be stated.
-/

namespace TagDoc

/-- DocumentCategory: the closed enumeration of category label values, in
source order. -/
def documentCategories : List String :=
  ["Distributed Systems", "Natural Language Processing", "Hardware",
   "Algorithms", "Performance Engineering", "Networks", "Teaching",
   "Machine Learning", "Linear Algebra", "Operating Systems",
   "Computer Science", "Database Design", "Database Systems",
   "Graph Theory", "Mathematics", "Operations Research",
   "Software Engineering", "System Design", "Research", "Systems",
   "Other"]

/-- TaggingModel: the validated record, as returned by model_dump(). -/
structure TaggingModel where
  title : String
  category : String
  tags : String
  description : String
deriving DecidableEq, Repr

/-- Field constraint on title: Field(..., min_length=1, max_length=200). -/
def titleFieldOk (v : String) : Prop := 1 ≤ v.length ∧ v.length ≤ 200

/-- Field constraint on category: Field(..., min_length=1, max_length=50). -/
def categoryFieldOk (v : String) : Prop := 1 ≤ v.length ∧ v.length ≤ 50

/-- Field constraint on tags: Field(..., min_length=1). -/
def tagsFieldOk (v : String) : Prop := 1 ≤ v.length

/-- Field constraint on description: Field(..., min_length=10, max_length=1000). -/
def descriptionFieldOk (v : String) : Prop := 10 ≤ v.length ∧ v.length ≤ 1000

instance (v : String) : Decidable (titleFieldOk v) := by
  unfold titleFieldOk; infer_instance

instance (v : String) : Decidable (categoryFieldOk v) := by
  unfold categoryFieldOk; infer_instance

instance (v : String) : Decidable (tagsFieldOk v) := by
  unfold tagsFieldOk; infer_instance

instance (v : String) : Decidable (descriptionFieldOk v) := by
  unfold descriptionFieldOk; infer_instance

/-- Python str.strip(): remove leading and trailing whitespace. Spelled
out structurally over the character list so that it reduces on concrete
strings. -/
def pyStrip (s : String) : String :=
  String.mk ((((s.data.dropWhile Char.isWhitespace).reverse).dropWhile
    Char.isWhitespace).reverse)

/-- validator("tags"): splits on commas and strips each item, but discards
the split and returns the input unchanged. -/
def validate_tags (v : String) : String :=
  let _tags := (v.splitOn ",").map (fun tag => pyStrip tag)
  v

/-- validator("category"): DocumentCategory(v).value if v is one of the
enumeration values, otherwise DocumentCategory.OTHER.value, that is
"Other". -/
def validate_category (v : String) : String :=
  if v ∈ documentCategories then v else "Other"

/-- TaggingModel(**tags_dict): pydantic first checks the Field length
constraints on each raw field, then runs the two after-validators; on any
constraint violation it raises (none). -/
def validateRecord (title category tags description : String) :
    Option TaggingModel :=
  if titleFieldOk title ∧ categoryFieldOk category ∧ tagsFieldOk tags ∧
      descriptionFieldOk description then
    some { title := title, category := validate_category category,
           tags := validate_tags tags, description := description }
  else none

/-- DocumentTagger._create_title_prompt. The trailing text after the
interpolated slice, including the hash comment text, is part of the
f-string in the source. -/
def create_title_prompt (document_content : String) : String :=
  "<task>Extract a technical document title</task>\n\n<context>\n" ++
  document_content.take 1000 ++
  "  # Only first 1000 chars needed for title\n</context>\n\n<requirements>\n- Maximum length: 200 characters\n- If main heading exists (# or ##), use that directly\n- No markdown formatting in output\n- Must be specific and technical\n- Focus on core subject matter\n</requirements>\n\n<output_format>\nTitle only, no explanations or additional text\n</output_format>\n\n<examples>\nInput: # Building Distributed Systems with Kafka\nOutput: Building Distributed Systems with Kafka\n\nInput: This paper discusses optimization techniques...\nOutput: Optimization Techniques for Large-Scale Systems\n\nBad output: \"Title: Database Sharding Patterns\"\nBad output: # Database Sharding Patterns\n</examples>"

/-- DocumentTagger._create_category_prompt. -/
def create_category_prompt (document_content : String) (title : String) :
    String :=
  let categories := String.intercalate "\n"
    (documentCategories.map (fun cat => "- " ++ cat))
  "<task>Categorize a technical document</task>\n\n<context>\nTitle: " ++
  title ++ "\nFirst 1000 chars: " ++ document_content.take 1000 ++
  "\n</context>\n\n<valid_categories>\n" ++ categories ++
  "\n</valid_categories>\n\n<requirements>\n- Select exactly ONE category\n- Match category name exactly\n- Use Other only if no category fits\n</requirements>\n\n<output_format>\nCategory name only, no explanations or additional text\n</output_format>\n\n<examples>\nGood: Database Systems\nBad: \"Category: Database Systems\"\nBad: This belongs in Database Systems\n</examples>"

/-- DocumentTagger._create_tags_prompt. -/
def create_tags_prompt (document_content : String) (title : String)
    (category : String) : String :=
  "<task>Generate technical tags</task>\n\n<context>\nTitle: " ++ title ++
  "\nCategory: " ++ category ++ "\nFirst 1500 chars: " ++
  document_content.take 1500 ++
  "\n</context>\n\n<requirements>\n- 3-7 tags total\n- Comma-separated format\n- Specific technical terms only\n- Mix of high-level and specific concepts\n- No markdown or formatting\n</requirements>\n\n<output_format>\ntag1, tag2, tag3\nNo explanations or additional text\n</output_format>\n\n<examples>\nGood: distributed systems, fault tolerance, consensus algorithms\nBad: \"Tags: databases, sql, indexing\"\nBad: 1. databases 2. sql 3. indexing\n</examples>"

/-- DocumentTagger._create_description_prompt. headers joins the lines of
the document that start with a hash. -/
def create_description_prompt (document_content : String) (title : String)
    (category : String) (tags : String) : String :=
  let headers := String.intercalate "\n"
    ((document_content.splitOn "\n").filter (fun line => line.startsWith "#"))
  "<task>Write technical document description</task>\n\n<context>\nTitle: " ++
  title ++ "\nCategory: " ++ category ++ "\nTags: " ++ tags ++
  "\nDocument headers:\n" ++ headers ++
  "\n</context>\n\n<requirements>\n- Maximum 3 sentences\n- No markdown formatting\n- Focus on technical content\n- Be specific about concepts covered\n- Maximum length: 1000 characters\n- Don\x27t start with \"This document\" or similar\n</requirements>\n\n<output_format>\nPlain text description only\nNo explanations or additional text\n</output_format>\n\n<examples>\nGood: Explores distributed consensus algorithms with focus on Raft implementation. Covers leader election, log replication, and safety proofs.\nBad: \"Description: This document covers distributed systems...\"\nBad: # Overview of consensus algorithms\n</examples>"

/-- Chat dependency oracle: call index and user prompt to either an error
message (the call raised) or the raw response content string. -/
def Chat : Type := Nat → String → Except String String

/-- DocumentTagger._get_single_field: one chat call; on success the
response content is stripped of surrounding whitespace; an exception is
logged and re-raised. -/
def get_single_field (chat : Chat) (k : Nat) (prompt : String) :
    Except String String :=
  match chat k prompt with
  | Except.ok content => Except.ok (pyStrip content)
  | Except.error e => Except.error e

/-- Step labels for the four dependency calls of one attempt. -/
inductive Step where
  | title
  | category
  | tags
  | description
deriving DecidableEq, Repr

/-- The full step sequence of one attempt, in source order. -/
def attemptSteps : List Step :=
  [Step.title, Step.category, Step.tags, Step.description]

/-- Failure of one attempt: a dependency call raised, or pydantic
validation raised. Both are caught by the same except clause. -/
inductive AttemptError where
  | depError (msg : String)
  | validationError
deriving DecidableEq, Repr

/-- The body of one iteration of the retry loop in get_tags: the four
sequential dependency calls, each prompt conditioned on the stripped
outputs of the earlier steps, then assembly and validation. Returns the
outcome together with the steps for which a dependency call was made. -/
def run_attempt (chat : Chat) (doc : String) (k : Nat) :
    Except AttemptError TaggingModel × List Step :=
  match get_single_field chat k (create_title_prompt doc) with
  | Except.error e => (Except.error (AttemptError.depError e), [Step.title])
  | Except.ok title =>
    match get_single_field chat (k + 1) (create_category_prompt doc title) with
    | Except.error e =>
        (Except.error (AttemptError.depError e), [Step.title, Step.category])
    | Except.ok category =>
      match get_single_field chat (k + 2)
          (create_tags_prompt doc title category) with
      | Except.error e =>
          (Except.error (AttemptError.depError e),
           [Step.title, Step.category, Step.tags])
      | Except.ok tags =>
        match get_single_field chat (k + 3)
            (create_description_prompt doc title category tags) with
        | Except.error e =>
            (Except.error (AttemptError.depError e), attemptSteps)
        | Except.ok description =>
          match validateRecord title category tags description with
          | some r => (Except.ok r, attemptSteps)
          | none => (Except.error AttemptError.validationError, attemptSteps)

/-- Message of the terminal ValueError raised when all attempts failed. -/
def retriesMsg (max_retries : Int) : String :=
  "Failed to generate valid tags after " ++ toString max_retries ++
  " attempts"

/-- Python range(n): the attempt indices 0 .. n-1, empty when n ≤ 0. -/
def pyRange (n : Int) : List Nat := List.range n.toNat

/-- The retry loop of get_tags over the remaining attempt indices,
threading the dependency call counter k and the step trace tr. A
successful attempt returns immediately; a failed attempt is swallowed
unless its index equals max_retries - 1, in which case the terminal
ValueError is raised. -/
def get_tags_go (chat : Chat) (doc : String) (max_retries : Int) :
    List Nat → Nat → List Step →
    Except String (Option TaggingModel) × Nat × List Step
  | [], k, tr => (Except.ok none, k, tr)
  | attempt :: rest, k, tr =>
    match run_attempt chat doc k with
    | (Except.ok r, steps) =>
        (Except.ok (some r), k + steps.length, tr ++ steps)
    | (Except.error _, steps) =>
        if (attempt : Int) = max_retries - 1 then
          (Except.error (retriesMsg max_retries), k + steps.length, tr ++ steps)
        else
          get_tags_go chat doc max_retries rest (k + steps.length) (tr ++ steps)

/-- DocumentTagger.get_tags: for attempt in range(max_retries), run the
four-step attempt; return the validated record on success; on the last
failed attempt raise the terminal ValueError; if the loop finishes
without executing (max_retries ≤ 0) Python returns None. The second and
third components are the total number of dependency calls and the step
trace. -/
def get_tags (chat : Chat) (max_retries : Int) (doc : String) :
    Except String (Option TaggingModel) × Nat × List Step :=
  get_tags_go chat doc max_retries (pyRange max_retries) 0 []

/-! Lemmas about validation. -/

theorem validate_tags_id (v : String) : validate_tags v = v := rfl

theorem other_mem_documentCategories : "Other" ∈ documentCategories := by
  decide

theorem validate_category_mem (v : String) :
    validate_category v ∈ documentCategories := by
  unfold validate_category
  split
  · assumption
  · exact other_mem_documentCategories

theorem validate_category_of_not_mem {v : String}
    (h : v ∉ documentCategories) : validate_category v = "Other" := by
  unfold validate_category
  simp [h]

theorem validateRecord_some {t c g d : String} {r : TaggingModel}
    (h : validateRecord t c g d = some r) :
    r.title = t ∧ r.category = validate_category c ∧ r.tags = g ∧
      r.description = d ∧ titleFieldOk t ∧ categoryFieldOk c ∧
      tagsFieldOk g ∧ descriptionFieldOk d := by
  unfold validateRecord at h
  split at h
  · next hok =>
    cases h
    exact ⟨rfl, rfl, rfl, rfl, hok.1, hok.2.1, hok.2.2.1, hok.2.2.2⟩
  · cases h

theorem validateRecord_of_ok {t c g d : String}
    (h1 : titleFieldOk t) (h2 : categoryFieldOk c) (h3 : tagsFieldOk g)
    (h4 : descriptionFieldOk d) :
    validateRecord t c g d =
      some { title := t, category := validate_category c,
             tags := g, description := d } := by
  unfold validateRecord
  rw [if_pos ⟨h1, h2, h3, h4⟩]
  rfl

/-! Lemmas about one attempt. -/

theorem get_single_field_ok {chat : Chat} {k : Nat} {p s : String}
    (h : get_single_field chat k p = Except.ok s) :
    ∃ c, chat k p = Except.ok c ∧ s = pyStrip c := by
  unfold get_single_field at h
  cases hc : chat k p with
  | ok c => rw [hc] at h; cases h; exact ⟨c, rfl, rfl⟩
  | error e => rw [hc] at h; cases h

theorem run_attempt_ok {chat : Chat} {doc : String} {k : Nat}
    {r : TaggingModel} {steps : List Step}
    (h : run_attempt chat doc k = (Except.ok r, steps)) :
    steps = attemptSteps ∧ ∃ t c g d,
      chat k (create_title_prompt doc) = Except.ok t ∧
      chat (k + 1) (create_category_prompt doc (pyStrip t)) = Except.ok c ∧
      chat (k + 2) (create_tags_prompt doc (pyStrip t) (pyStrip c)) =
        Except.ok g ∧
      chat (k + 3) (create_description_prompt doc (pyStrip t) (pyStrip c)
        (pyStrip g)) = Except.ok d ∧
      validateRecord (pyStrip t) (pyStrip c) (pyStrip g) (pyStrip d) =
        some r := by
  unfold run_attempt at h
  cases h1 : get_single_field chat k (create_title_prompt doc) with
  | error e => simp [h1] at h
  | ok s1 =>
  simp only [h1] at h
  cases h2 : get_single_field chat (k + 1) (create_category_prompt doc s1) with
  | error e => simp [h2] at h
  | ok s2 =>
  simp only [h2] at h
  cases h3 : get_single_field chat (k + 2)
      (create_tags_prompt doc s1 s2) with
  | error e => simp [h3] at h
  | ok s3 =>
  simp only [h3] at h
  cases h4 : get_single_field chat (k + 3)
      (create_description_prompt doc s1 s2 s3) with
  | error e => simp [h4] at h
  | ok s4 =>
  simp only [h4] at h
  cases h5 : validateRecord s1 s2 s3 s4 with
  | none => simp [h5] at h
  | some r0 =>
  simp only [h5, Prod.mk.injEq, Except.ok.injEq] at h
  obtain ⟨hr, hsteps⟩ := h
  subst hr
  subst hsteps
  obtain ⟨c1, hc1, hs1⟩ := get_single_field_ok h1
  obtain ⟨c2, hc2, hs2⟩ := get_single_field_ok h2
  obtain ⟨c3, hc3, hs3⟩ := get_single_field_ok h3
  obtain ⟨c4, hc4, hs4⟩ := get_single_field_ok h4
  subst hs1; subst hs2; subst hs3; subst hs4
  exact ⟨rfl, c1, c2, c3, c4, hc1, hc2, hc3, hc4, h5⟩

theorem run_attempt_steps_extend (chat : Chat) (doc : String) (k : Nat) :
    ∃ u, (run_attempt chat doc k).2 ++ u = attemptSteps := by
  unfold run_attempt
  cases h1 : get_single_field chat k (create_title_prompt doc) with
  | error e => exact ⟨[Step.category, Step.tags, Step.description], rfl⟩
  | ok s1 =>
  simp only []
  cases h2 : get_single_field chat (k + 1) (create_category_prompt doc s1) with
  | error e => exact ⟨[Step.tags, Step.description], rfl⟩
  | ok s2 =>
  simp only []
  cases h3 : get_single_field chat (k + 2) (create_tags_prompt doc s1 s2) with
  | error e => exact ⟨[Step.description], rfl⟩
  | ok s3 =>
  simp only []
  cases h4 : get_single_field chat (k + 3)
      (create_description_prompt doc s1 s2 s3) with
  | error e => exact ⟨[], rfl⟩
  | ok s4 =>
  simp only []
  cases validateRecord s1 s2 s3 s4 with
  | none => exact ⟨[], rfl⟩
  | some r0 => exact ⟨[], rfl⟩

theorem run_attempt_of_fail {chat : Chat}
    (hf : ∀ k p, ∃ e, chat k p = Except.error e) (doc : String) (k : Nat) :
    ∃ e, run_attempt chat doc k =
      (Except.error (AttemptError.depError e), [Step.title]) := by
  obtain ⟨e, he⟩ := hf k (create_title_prompt doc)
  refine ⟨e, ?_⟩
  unfold run_attempt get_single_field
  rw [he]

/-! Equation lemmas for the retry loop. -/

theorem get_tags_go_nil (chat : Chat) (doc : String) (mr : Int) (k : Nat)
    (tr : List Step) :
    get_tags_go chat doc mr [] k tr = (Except.ok none, k, tr) := rfl

theorem get_tags_go_cons_ok {chat : Chat} {doc : String} {k : Nat}
    {r : TaggingModel} {steps : List Step} (mr : Int) (a : Nat)
    (rest : List Nat) (tr : List Step)
    (h : run_attempt chat doc k = (Except.ok r, steps)) :
    get_tags_go chat doc mr (a :: rest) k tr =
      (Except.ok (some r), k + steps.length, tr ++ steps) := by
  unfold get_tags_go
  rw [h]

theorem get_tags_go_cons_err_last {chat : Chat} {doc : String} {k : Nat}
    {err : AttemptError} {steps : List Step} {mr : Int} {a : Nat}
    (rest : List Nat) (tr : List Step)
    (h : run_attempt chat doc k = (Except.error err, steps))
    (ha : (a : Int) = mr - 1) :
    get_tags_go chat doc mr (a :: rest) k tr =
      (Except.error (retriesMsg mr), k + steps.length, tr ++ steps) := by
  unfold get_tags_go
  rw [h]
  simp only [if_pos ha]

theorem get_tags_go_cons_err_cont {chat : Chat} {doc : String} {k : Nat}
    {err : AttemptError} {steps : List Step} {mr : Int} {a : Nat}
    (rest : List Nat) (tr : List Step)
    (h : run_attempt chat doc k = (Except.error err, steps))
    (ha : (a : Int) ≠ mr - 1) :
    get_tags_go chat doc mr (a :: rest) k tr =
      get_tags_go chat doc mr rest (k + steps.length) (tr ++ steps) := by
  conv_lhs => rw [get_tags_go.eq_def]
  simp only [h, if_neg ha]

/-! Induction lemmas for the retry loop. -/

theorem go_error {chat : Chat} {doc : String} {mr : Int} :
    ∀ (l : List Nat) (k : Nat) (tr : List Step) (e : String),
      (get_tags_go chat doc mr l k tr).1 = Except.error e →
      e = retriesMsg mr := by
  intro l
  induction l with
  | nil => intro k tr e h; rw [get_tags_go_nil] at h; cases h
  | cons a rest IH =>
    intro k tr e h
    rcases hr : run_attempt chat doc k with ⟨res, steps⟩
    cases res with
    | ok r => rw [get_tags_go_cons_ok mr a rest tr hr] at h; cases h
    | error err =>
      by_cases ha : (a : Int) = mr - 1
      · rw [get_tags_go_cons_err_last rest tr hr ha] at h
        cases h
        rfl
      · rw [get_tags_go_cons_err_cont rest tr hr ha] at h
        exact IH _ _ _ h

theorem go_ok {chat : Chat} {doc : String} {mr : Int} :
    ∀ (l : List Nat) (k : Nat) (tr : List Step) (r : TaggingModel),
      (get_tags_go chat doc mr l k tr).1 = Except.ok (some r) →
      ∃ k0 steps, run_attempt chat doc k0 = (Except.ok r, steps) := by
  intro l
  induction l with
  | nil => intro k tr r h; rw [get_tags_go_nil] at h; cases h
  | cons a rest IH =>
    intro k tr r h
    rcases hr : run_attempt chat doc k with ⟨res, steps⟩
    cases res with
    | ok r0 =>
      rw [get_tags_go_cons_ok mr a rest tr hr] at h
      cases h
      exact ⟨k, steps, hr⟩
    | error err =>
      by_cases ha : (a : Int) = mr - 1
      · rw [get_tags_go_cons_err_last rest tr hr ha] at h; cases h
      · rw [get_tags_go_cons_err_cont rest tr hr ha] at h
        exact IH _ _ _ h

theorem go_classify {chat : Chat} {doc : String} {mr : Int} :
    ∀ (l : List Nat) (k : Nat) (tr : List Step),
      (∃ r, (get_tags_go chat doc mr l k tr).1 = Except.ok (some r)) ∨
      (get_tags_go chat doc mr l k tr).1 = Except.error (retriesMsg mr) ∨
      ((get_tags_go chat doc mr l k tr).1 = Except.ok none ∧
        ∀ a ∈ l, (a : Int) ≠ mr - 1) := by
  intro l
  induction l with
  | nil =>
    intro k tr
    exact Or.inr (Or.inr ⟨rfl, by intro a ha; cases ha⟩)
  | cons a rest IH =>
    intro k tr
    rcases hr : run_attempt chat doc k with ⟨res, steps⟩
    cases res with
    | ok r =>
      rw [get_tags_go_cons_ok mr a rest tr hr]
      exact Or.inl ⟨r, rfl⟩
    | error err =>
      by_cases ha : (a : Int) = mr - 1
      · rw [get_tags_go_cons_err_last rest tr hr ha]
        exact Or.inr (Or.inl rfl)
      · rw [get_tags_go_cons_err_cont rest tr hr ha]
        rcases IH (k + steps.length) (tr ++ steps) with h1 | h2 | ⟨h3, h4⟩
        · exact Or.inl h1
        · exact Or.inr (Or.inl h2)
        · refine Or.inr (Or.inr ⟨h3, ?_⟩)
          intro b hb
          rcases List.mem_cons.mp hb with rfl | hb2
          · exact ha
          · exact h4 b hb2

theorem go_fail_all {chat : Chat} {doc : String} {mr : Int}
    (hf : ∀ k p, ∃ e, chat k p = Except.error e) :
    ∀ (l : List Nat) (k : Nat) (tr : List Step),
      (∀ a ∈ l.dropLast, (a : Int) ≠ mr - 1) →
      (∀ hne : l ≠ [], ((l.getLast hne : Nat) : Int) = mr - 1) →
      ∀ _hne : l ≠ [],
      get_tags_go chat doc mr l k tr =
        (Except.error (retriesMsg mr), k + l.length,
         tr ++ List.replicate l.length Step.title) := by
  intro l
  induction l with
  | nil => intro k tr _ _ hne; exact absurd rfl hne
  | cons a rest IH =>
    intro k tr hdrop hlast _
    obtain ⟨e, hre⟩ := run_attempt_of_fail hf doc k
    cases rest with
    | nil =>
      have ha : (a : Int) = mr - 1 := hlast (by simp)
      rw [get_tags_go_cons_err_last [] tr hre ha]
      simp
    | cons b rest2 =>
      have ha : (a : Int) ≠ mr - 1 := by
        apply hdrop
        simp [List.dropLast]
      rw [get_tags_go_cons_err_cont (b :: rest2) tr hre ha]
      have hd2 : ∀ x ∈ (b :: rest2).dropLast, (x : Int) ≠ mr - 1 := by
        intro x hx
        apply hdrop
        simp [List.dropLast, hx]
      have hl2 : ∀ hne : (b :: rest2) ≠ [],
          (((b :: rest2).getLast hne : Nat) : Int) = mr - 1 := by
        intro hne
        have := hlast (by simp)
        rwa [List.getLast_cons hne] at this
      rw [IH (k + [Step.title].length) (tr ++ [Step.title]) hd2 hl2 (by simp)]
      simp [Prod.ext_iff, List.replicate_succ]
      omega

theorem go_trace {chat : Chat} {doc : String} {mr : Int} :
    ∀ (l : List Nat) (k : Nat) (tr : List Step),
      ∃ ps : List (List Step),
        (get_tags_go chat doc mr l k tr).2.2 = tr ++ ps.flatten ∧
        (get_tags_go chat doc mr l k tr).2.1 = k + ps.flatten.length ∧
        ps.length ≤ l.length ∧
        ∀ p ∈ ps, ∃ u, p ++ u = attemptSteps := by
  intro l
  induction l with
  | nil =>
    intro k tr
    refine ⟨[], ?_, ?_, ?_, ?_⟩ <;> simp [get_tags_go_nil]
  | cons a rest IH =>
    intro k tr
    rcases hr : run_attempt chat doc k with ⟨res, steps⟩
    have hext : ∃ u, steps ++ u = attemptSteps := by
      have h := run_attempt_steps_extend chat doc k
      rw [hr] at h
      exact h
    have hsingle : ∀ p ∈ [steps], ∃ u, p ++ u = attemptSteps := by
      intro p hp
      rw [List.mem_singleton] at hp
      subst hp
      exact hext
    cases res with
    | ok r =>
      rw [get_tags_go_cons_ok mr a rest tr hr]
      exact ⟨[steps], by simp, by simp, by simp, hsingle⟩
    | error err =>
      by_cases ha : (a : Int) = mr - 1
      · rw [get_tags_go_cons_err_last rest tr hr ha]
        exact ⟨[steps], by simp, by simp, by simp, hsingle⟩
      · rw [get_tags_go_cons_err_cont rest tr hr ha]
        obtain ⟨ps, h1, h2, h3, h4⟩ := IH (k + steps.length) (tr ++ steps)
        refine ⟨steps :: ps, ?_, ?_, ?_, ?_⟩
        · rw [h1]; simp [List.append_assoc]
        · rw [h2]; simp; omega
        · simpa using Nat.succ_le_succ h3
        · intro p hp
          rcases List.mem_cons.mp hp with rfl | hp2
          · exact hext
          · exact h4 p hp2

theorem join_length_le :
    ∀ ps : List (List Step), (∀ p ∈ ps, p.length ≤ 4) →
      ps.flatten.length ≤ 4 * ps.length := by
  intro ps
  induction ps with
  | nil => intro _; simp
  | cons p rest IH =>
    intro h
    have hp := h p (by simp)
    have hr := IH (fun q hq => h q (by simp [hq]))
    simp only [List.flatten_cons, List.length_append, List.length_cons]
    omega

theorem join_length_lt :
    ∀ ps : List (List Step), (∀ p ∈ ps, p.length ≤ 4) →
      (∃ p ∈ ps, p.length < 4) → ps.flatten.length < 4 * ps.length := by
  intro ps
  induction ps with
  | nil => intro _ hex; simp at hex
  | cons p rest IH =>
    intro h hex
    have hp := h p (by simp)
    have hrle := join_length_le rest (fun q hq => h q (by simp [hq]))
    simp only [List.flatten_cons, List.length_append, List.length_cons]
    rcases hex with ⟨q, hq, hqlt⟩
    rcases List.mem_cons.mp hq with rfl | hq2
    · omega
    · have := IH (fun x hx => h x (by simp [hx])) ⟨q, hq2, hqlt⟩
      omega

/-! Helper lemmas about the attempt index list range(max_retries). -/

theorem pyRange_ne_nil {mr : Int} (hmr : 1 ≤ mr) : pyRange mr ≠ [] := by
  unfold pyRange
  simp [List.range_eq_nil]
  omega

theorem pyRange_last_mem {mr : Int} (hmr : 1 ≤ mr) :
    mr.toNat - 1 ∈ pyRange mr ∧ ((mr.toNat - 1 : Nat) : Int) = mr - 1 := by
  constructor
  · unfold pyRange
    rw [List.mem_range]
    omega
  · omega

/-- C1: For every document and every behavior of the chat dependency,
under the spec state invariant max_retries ≥ 1, get_tags either returns a
record whose category field is a member of the fixed DocumentCategory
value set, or raises the terminal retries-exhausted ValueError. -/
theorem c1_category_in_set_or_retries_exhausted (chat : Chat) (mr : Int)
    (doc : String) (hmr : 1 ≤ mr) :
    (∃ r, (get_tags chat mr doc).1 = Except.ok (some r) ∧
      r.category ∈ documentCategories) ∨
    (get_tags chat mr doc).1 = Except.error (retriesMsg mr) := by
  rcases @go_classify chat doc mr (pyRange mr) 0 [] with ⟨r, hres⟩ | herr | ⟨_, hall⟩
  · left
    refine ⟨r, hres, ?_⟩
    obtain ⟨k0, steps, hrun⟩ := go_ok (pyRange mr) 0 [] r hres
    obtain ⟨-, t, c, g, d, -, -, -, -, hv⟩ := run_attempt_ok hrun
    obtain ⟨-, hcat, -, -, -, -, -, -⟩ := validateRecord_some hv
    rw [hcat]
    exact validate_category_mem _
  · right
    exact herr
  · exfalso
    obtain ⟨hmem, hcast⟩ := pyRange_last_mem hmr
    exact hall _ hmem hcast

/-- Witness for C1 at a concrete always-failing dependency with
max_retries = 1. -/
theorem c1_witness :
    (∃ r, (get_tags (fun _ _ => Except.error "x") 1 "d").1 =
        Except.ok (some r) ∧ r.category ∈ documentCategories) ∨
    (get_tags (fun _ _ => Except.error "x") 1 "d").1 =
      Except.error (retriesMsg 1) :=
  c1_category_in_set_or_retries_exhausted (fun _ _ => Except.error "x") 1 "d"
    (by decide)

/-- C2: whenever the assembled four-field record validates although its
raw category string is not a member of the fixed category value set, the
validated record's category equals "Other". -/
theorem c2_unknown_category_coerced_to_other (t c g d : String)
    (r : TaggingModel) (hv : validateRecord t c g d = some r)
    (hc : c ∉ documentCategories) : r.category = "Other" := by
  obtain ⟨-, hcat, -, -, -, -, -, -⟩ := validateRecord_some hv
  rw [hcat, validate_category_of_not_mem hc]

/-- Witness for C2 at the concrete invalid raw category "Blockchain". -/
theorem c2_witness :
    validateRecord "Raft Consensus" "Blockchain" "consensus, raft"
        "Explores leader election in Raft." =
      some { title := "Raft Consensus", category := "Other",
             tags := "consensus, raft",
             description := "Explores leader election in Raft." } ∧
    "Blockchain" ∉ documentCategories ∧
    ({ title := "Raft Consensus", category := "Other",
       tags := "consensus, raft",
       description := "Explores leader election in Raft." } :
        TaggingModel).category = "Other" :=
  ⟨rfl, by decide,
   c2_unknown_category_coerced_to_other "Raft Consensus" "Blockchain"
     "consensus, raft" "Explores leader election in Raft." _ rfl (by decide)⟩

/-- C3: if every dependency call fails and max_retries ≥ 1, get_tags
raises the terminal retries-exhausted ValueError; the step trace is
exactly max_retries occurrences of the title step, so exactly max_retries
attempts were started, never fewer and never more, each aborting at its
first dependency call; the call counter equals max_retries. -/
theorem c3_retry_bound (chat : Chat) (mr : Int) (doc : String)
    (hf : ∀ k p, ∃ e, chat k p = Except.error e) (hmr : 1 ≤ mr) :
    get_tags chat mr doc =
      (Except.error (retriesMsg mr), mr.toNat,
       List.replicate mr.toNat Step.title) := by
  obtain ⟨m, hm⟩ : ∃ m, mr.toNat = m + 1 := ⟨mr.toNat - 1, by omega⟩
  have hrange : pyRange mr = List.range m ++ [m] := by
    unfold pyRange
    rw [hm, List.range_succ]
  have hmint : (m : Int) = mr - 1 := by omega
  have hdrop : ∀ a ∈ (pyRange mr).dropLast, (a : Int) ≠ mr - 1 := by
    intro a ha
    rw [hrange] at ha
    simp at ha
    omega
  have hlast : ∀ hne : pyRange mr ≠ [],
      (((pyRange mr).getLast hne : Nat) : Int) = mr - 1 := by
    intro hne
    have haux : ∀ (l : List Nat) (h : l ≠ []),
        l = List.range m ++ [m] → ((l.getLast h : Nat) : Int) = mr - 1 := by
      intro l h heq
      subst heq
      rw [List.getLast_append]
      exact hmint
    exact haux _ hne hrange
  have hres := @go_fail_all chat doc mr hf (pyRange mr) 0 [] hdrop hlast
    (pyRange_ne_nil hmr)
  have hlen : (pyRange mr).length = mr.toNat := by
    unfold pyRange
    exact List.length_range _
  show get_tags_go chat doc mr (pyRange mr) 0 [] = _
  rw [hres, hlen]
  simp

/-- Witness for C3 at a concrete always-failing dependency with
max_retries = 2: the terminal error is raised after exactly two attempts
and two dependency calls. -/
theorem c3_witness :
    get_tags (fun _ _ => Except.error "boom") 2 "d" =
      (Except.error (retriesMsg 2), (2 : Int).toNat,
       List.replicate (2 : Int).toNat Step.title) :=
  c3_retry_bound (fun _ _ => Except.error "boom") 2 "d"
    (fun _ _ => ⟨"boom", rfl⟩) (by decide)

theorem string_take_take_self (s : String) (n : Nat) :
    (s.take n).take n = s.take n := by
  apply String.ext
  simp [String.data_take, List.take_take]

/-- C5: the title prompt contains no document content beyond the first
1000 characters, and the tags prompt none beyond the first 1500: each
equals the prompt built from the corresponding truncation of the
document. -/
theorem c5_prompt_truncation (doc t c : String) :
    create_title_prompt doc = create_title_prompt (doc.take 1000) ∧
    create_tags_prompt doc t c = create_tags_prompt (doc.take 1500) t c := by
  constructor
  · unfold create_title_prompt
    rw [string_take_take_self]
  · unfold create_tags_prompt
    rw [string_take_take_self]

/-- C4: every record returned by get_tags, that is every record that
passed validation, has title length in [1, 200], description length in
[10, 1000], and a non-empty tags string. -/
theorem c4_returned_record_bounds (chat : Chat) (mr : Int) (doc : String)
    (r : TaggingModel) (h : (get_tags chat mr doc).1 = Except.ok (some r)) :
    1 ≤ r.title.length ∧ r.title.length ≤ 200 ∧
    10 ≤ r.description.length ∧ r.description.length ≤ 1000 ∧
    1 ≤ r.tags.length := by
  obtain ⟨k0, steps, hrun⟩ := go_ok (pyRange mr) 0 [] r h
  obtain ⟨-, t, c, g, d, -, -, -, -, hv⟩ := run_attempt_ok hrun
  obtain ⟨ht, -, hg, hd, htok, -, hgok, hdok⟩ := validateRecord_some hv
  unfold titleFieldOk at htok
  unfold tagsFieldOk at hgok
  unfold descriptionFieldOk at hdok
  rw [ht, hg, hd]
  exact ⟨htok.1, htok.2, hdok.1, hdok.2, hgok⟩

/-- Dependency oracle used by the witness of C4: returns a fixed valid
response for each of the four call indices. -/
def chatW4 : Chat := fun k _ =>
  Except.ok (["Raft Consensus", "Distributed Systems",
    "consensus, raft, leader election",
    "Explores leader election in Raft."].getD k "")

/-- Record produced by get_tags with the chatW4 oracle. -/
def recW4 : TaggingModel :=
  { title := "Raft Consensus", category := "Distributed Systems",
    tags := "consensus, raft, leader election",
    description := "Explores leader election in Raft." }

/-- Witness for C4 at a concrete successful run. -/
theorem c4_witness :
    (get_tags chatW4 1 "# Raft\ndoc").1 = Except.ok (some recW4) ∧
    (1 ≤ recW4.title.length ∧ recW4.title.length ≤ 200 ∧
     10 ≤ recW4.description.length ∧ recW4.description.length ≤ 1000 ∧
     1 ≤ recW4.tags.length) :=
  ⟨rfl, c4_returned_record_bounds chatW4 1 "# Raft\ndoc" recW4 rfl⟩

/-- C6: across one run of get_tags the step trace splits into at most
max_retries attempt traces, each an initial segment of the step sequence
title, category, tags, description (so the calls within an attempt happen
in that order, an aborted attempt makes no further calls, and the next
attempt restarts at the title step); the total number of dependency calls
equals the trace length, is at most max_retries × 4, and is strictly
smaller whenever some attempt made fewer than four calls. -/
theorem c6_call_order_and_budget (chat : Chat) (mr : Int) (doc : String) :
    ∃ ps : List (List Step),
      (get_tags chat mr doc).2.2 = ps.flatten ∧
      (get_tags chat mr doc).2.1 = ps.flatten.length ∧
      ps.length ≤ mr.toNat ∧
      (∀ p ∈ ps, ∃ u, p ++ u = attemptSteps) ∧
      (get_tags chat mr doc).2.1 ≤ 4 * mr.toNat ∧
      ((∃ p ∈ ps, p.length < 4) →
        (get_tags chat mr doc).2.1 < 4 * mr.toNat) := by
  obtain ⟨ps, h1, h2, h3, h4⟩ := @go_trace chat doc mr (pyRange mr) 0 []
  have hlen : (pyRange mr).length = mr.toNat := by
    unfold pyRange
    exact List.length_range _
  rw [hlen] at h3
  have hple : ∀ p ∈ ps, p.length ≤ 4 := by
    intro p hp
    obtain ⟨u, hu⟩ := h4 p hp
    have hlu := congrArg List.length hu
    simp [attemptSteps] at hlu
    omega
  have hje := join_length_le ps hple
  have h2n : (get_tags chat mr doc).2.1 = ps.flatten.length := by
    have := h2
    simpa using this
  refine ⟨ps, by simpa using h1, h2n, h3, h4, by omega, ?_⟩
  intro hex
  have hjl := join_length_lt ps hple hex
  omega

/-- C7: the terminal retries-exhausted ValueError is the only error
get_tags surfaces: whatever error value the loop ends in, its message is
the retries-exhausted message, never a dependency or validation error
from an intermediate attempt. -/
theorem c7_only_retries_exhausted_surfaces (chat : Chat) (mr : Int)
    (doc : String) (e : String)
    (h : (get_tags chat mr doc).1 = Except.error e) : e = retriesMsg mr :=
  go_error (pyRange mr) 0 [] e h

/-- Witness for C7: a dependency failing with message "socket timeout"
still surfaces only the retries-exhausted message. -/
theorem c7_witness :
    (get_tags (fun _ _ => Except.error "socket timeout") 1 "d").1 =
      Except.error "Failed to generate valid tags after 1 attempts" ∧
    "Failed to generate valid tags after 1 attempts" = retriesMsg 1 :=
  ⟨rfl, c7_only_retries_exhausted_surfaces
    (fun _ _ => Except.error "socket timeout") 1 "d"
    "Failed to generate valid tags after 1 attempts" rfl⟩

/-- C8: validation puts no constraint on the number of comma-separated
tag items: the tags validator returns its input unchanged, and any
non-empty tags string, whatever it splits into, passes validation
unchanged whenever the other three fields meet their length constraints.
No 3-7 item count check and no description opening-phrase check exists in
the validated predicate. -/
theorem c8_tag_count_not_enforced (t c g d : String)
    (ht : titleFieldOk t) (hc : categoryFieldOk c)
    (hd : descriptionFieldOk d) (hg : 1 ≤ g.length) :
    validate_tags g = g ∧
    ∃ r, validateRecord t c g d = some r ∧ r.tags = g :=
  ⟨rfl, _, validateRecord_of_ok ht hc hg hd, rfl⟩

/-- Witness for C8: a single-item tags string and a twenty-item tags
string both validate unchanged; the second instance also uses a
description that starts with the generic phrase "This document", which
likewise passes. -/
theorem c8_witness :
    (validate_tags "networking" = "networking" ∧
     ∃ r, validateRecord "Sharding" "Database Systems" "networking"
        "Explains sharding strategies." = some r ∧ r.tags = "networking") ∧
    (validate_tags "t1, t2, t3, t4, t5, t6, t7, t8, t9, t10, t11, t12, t13, t14, t15, t16, t17, t18, t19, t20" = "t1, t2, t3, t4, t5, t6, t7, t8, t9, t10, t11, t12, t13, t14, t15, t16, t17, t18, t19, t20" ∧
     ∃ r, validateRecord "Sharding" "Blockchain" "t1, t2, t3, t4, t5, t6, t7, t8, t9, t10, t11, t12, t13, t14, t15, t16, t17, t18, t19, t20"
        "This document describes sharding." = some r ∧
        r.tags = "t1, t2, t3, t4, t5, t6, t7, t8, t9, t10, t11, t12, t13, t14, t15, t16, t17, t18, t19, t20") :=
  ⟨c8_tag_count_not_enforced "Sharding" "Database Systems" "networking"
     "Explains sharding strategies." (by decide) (by decide) (by decide)
     (by decide),
   c8_tag_count_not_enforced "Sharding" "Blockchain"
     "t1, t2, t3, t4, t5, t6, t7, t8, t9, t10, t11, t12, t13, t14, t15, t16, t17, t18, t19, t20"
     "This document describes sharding." (by decide) (by decide) (by decide)
     (by decide)⟩

/-- C9: constructed with max_retries ≤ 0, get_tags returns None for every
document, makes zero dependency calls, and raises no error. -/
theorem c9_nonpositive_retries_returns_none (chat : Chat) (mr : Int)
    (doc : String) (h : mr ≤ 0) :
    get_tags chat mr doc = (Except.ok none, 0, []) := by
  have hr : pyRange mr = [] := by
    unfold pyRange
    simp [List.range_eq_nil]
    omega
  show get_tags_go chat doc mr (pyRange mr) 0 [] = _
  rw [hr]
  exact get_tags_go_nil chat doc mr 0 []

/-- Witness for C9 at max_retries = -2 with a dependency that would
succeed if it were ever called. -/
theorem c9_witness :
    get_tags (fun _ _ => Except.ok "Raft") (-2) "document" =
      (Except.ok none, 0, []) :=
  c9_nonpositive_retries_returns_none (fun _ _ => Except.ok "Raft") (-2)
    "document" (by decide)

/-- C10: validation can alter only the category field: every record
returned by a successful get_tags run has title, tags and description
exactly equal to the whitespace-stripped response strings of the
corresponding dependency calls of the successful attempt. -/
theorem c10_validation_alters_only_category (chat : Chat) (mr : Int)
    (doc : String) (r : TaggingModel)
    (h : (get_tags chat mr doc).1 = Except.ok (some r)) :
    ∃ k t c g d,
      chat k (create_title_prompt doc) = Except.ok t ∧
      chat (k + 1) (create_category_prompt doc (pyStrip t)) = Except.ok c ∧
      chat (k + 2) (create_tags_prompt doc (pyStrip t) (pyStrip c)) =
        Except.ok g ∧
      chat (k + 3) (create_description_prompt doc (pyStrip t) (pyStrip c)
        (pyStrip g)) = Except.ok d ∧
      r.title = pyStrip t ∧ r.tags = pyStrip g ∧
      r.description = pyStrip d := by
  obtain ⟨k0, steps, hrun⟩ := go_ok (pyRange mr) 0 [] r h
  obtain ⟨-, t, c, g, d, h1, h2, h3, h4, hv⟩ := run_attempt_ok hrun
  obtain ⟨ht, -, hg, hd, -, -, -, -⟩ := validateRecord_some hv
  exact ⟨k0, t, c, g, d, h1, h2, h3, h4, ht, hg, hd⟩

/-- Dependency oracle used by the witness of C10: responses carry
surrounding whitespace, which get_single_field strips. -/
def chatW10 : Chat := fun k _ =>
  Except.ok (["  Consensus in Raft\n", " Distributed Systems ",
    "raft, consensus", "Covers Raft leader election and log replication."
    ].getD k "")

/-- Record produced by get_tags with the chatW10 oracle. -/
def recW10 : TaggingModel :=
  { title := "Consensus in Raft", category := "Distributed Systems",
    tags := "raft, consensus",
    description := "Covers Raft leader election and log replication." }

/-- Witness for C10 at a concrete successful run with whitespace-padded
dependency responses. -/
theorem c10_witness :
    (get_tags chatW10 1 "# Raft\ndoc").1 = Except.ok (some recW10) ∧
    (∃ k t c g d,
      chatW10 k (create_title_prompt "# Raft\ndoc") = Except.ok t ∧
      chatW10 (k + 1) (create_category_prompt "# Raft\ndoc" (pyStrip t)) =
        Except.ok c ∧
      chatW10 (k + 2) (create_tags_prompt "# Raft\ndoc" (pyStrip t)
        (pyStrip c)) = Except.ok g ∧
      chatW10 (k + 3) (create_description_prompt "# Raft\ndoc" (pyStrip t)
        (pyStrip c) (pyStrip g)) = Except.ok d ∧
      recW10.title = pyStrip t ∧ recW10.tags = pyStrip g ∧
      recW10.description = pyStrip d) :=
  ⟨rfl, c10_validation_alters_only_category chatW10 1 "# Raft\ndoc" recW10
    rfl⟩

end TagDoc
